import Mathlib

/-!
Shallow embedding of the persistent world-state engine of the pathfinder
repository (src/GameDatabase.cpp, src/GameEditor.cpp, src/MainWindow.cpp).

The SQLite tables of kSchemaSQL are embedded as lists of row structures; each
C++ operation becomes a Lean function over this state.  SQLite specifics that
the claims depend on are modelled explicitly:

* `INSERT OR IGNORE` into a table whose key is the inserted value becomes
  `insertIfAbsent`.
* `INSERT OR REPLACE` keyed on a primary key becomes remove-then-append.
* Foreign-key enforcement is connection dependent: `PRAGMA foreign_keys = ON`
  is executed only by `_CreateSchema`, i.e. on the connection that created the
  store; a connection obtained from `Open` leaves the SQLite default (OFF).
  Operations whose behaviour depends on enforcement take a `fk : Bool`
  parameter, and the handle type `GameDatabaseHandle` records the flag.
* `sqlite3_exec` on a multi-statement batch (as in `ClearGameState`) runs the
  statements one at a time, each auto-committed, and stops at the first
  failure; there is no enclosing transaction.  Statement failures modelled
  here are constraint-level (foreign-key violations); ambient I/O faults are
  out of scope.

Integer columns are `Int` (sqlite3_column_int), nullable columns `Option`.
-/

namespace Pathfinder

/-- A row of the `rooms` table. -/
structure RoomRow where
  id : Int
  name : String
  description : String
  imagePath : Option String := none
  northRoomId : Option Int := none
  southRoomId : Option Int := none
  eastRoomId : Option Int := none
  westRoomId : Option Int := none
  graphX : Int := 0
  graphY : Int := 0
deriving Repr, DecidableEq

/-- A row of the `items` table. -/
structure ItemRow where
  id : Int
  name : String
  description : String
  roomDescription : Option String := none
  imagePath : Option String := none
  canTake : Bool := true
  canUse : Bool := false
  canCombine : Bool := false
  useMessage : Option String := none
  isVisible : Bool := true
deriving Repr, DecidableEq

/-- A row of the `item_actions` table. -/
structure ActionRow where
  id : Int
  itemId : Int
  roomId : Option Int := none
  actionType : String
  targetItemId : Option Int := none
  targetDirection : Option String := none
  successMessage : Option String := none
  consumesItem : Bool := false
deriving Repr, DecidableEq

/-- A row of the `item_combinations` table. -/
structure CombinationRow where
  id : Int
  item1Id : Int
  item2Id : Int
  resultItemId : Int
  successMessage : Option String := none
deriving Repr, DecidableEq

/-- A row of the `exit_conditions` table. -/
structure ExitConditionRow where
  id : Int
  roomId : Int
  direction : String
  isLocked : Bool := true
  requiredItemId : Option Int := none
  lockedMessage : String := "The way is blocked."
deriving Repr, DecidableEq

/-- The singleton `game_state` row (id = 1). -/
structure GameStateRow where
  currentRoomId : Int
  score : Int := 0
  health : Int := 100
  movesCount : Int := 0
  startTime : Int := 0
deriving Repr, DecidableEq

/-- The store: one field per table of kSchemaSQL.  `item_locations` and
`item_locations_initial` rows are (item_id, room_id) pairs with nullable
room_id.  Of `game_metadata` only the `starting_room_id` key participates in
any operation; the free-form title/author/version keys are not modelled.
`itemSeq` is the AUTOINCREMENT high-water mark of `items.id`
(sqlite_sequence), used by `createItem` for `sqlite3_last_insert_rowid`. -/
structure DB where
  rooms : List RoomRow := []
  items : List ItemRow := []
  itemLocations : List (Int × Option Int) := []
  itemLocationsInitial : List (Int × Option Int) := []
  itemActions : List ActionRow := []
  itemCombinations : List CombinationRow := []
  exitConditions : List ExitConditionRow := []
  completedActions : List Int := []
  removedItems : List Int := []
  revealedItems : List Int := []
  unlockedExits : List (Int × String) := []
  gameState : Option GameStateRow := none
  startingRoomId : Int := 1
  itemSeq : Int := 0
deriving Repr, DecidableEq

/-- A `GameDatabase` object: `db = none` models `fDatabase == nullptr` (no
store open).  `foreignKeysOn` records whether this connection executed
`PRAGMA foreign_keys = ON` (true after `CreateNew`, false after `Open`). -/
structure GameDatabaseHandle where
  db : Option DB
  foreignKeysOn : Bool
deriving Repr, DecidableEq

/-- `INSERT OR IGNORE` into a table keyed by the whole inserted value:
appends the row unless an equal row is already present. -/
def insertIfAbsent {α : Type} [DecidableEq α] (x : α) (l : List α) : List α :=
  if x ∈ l then l else l ++ [x]

/-- Does a room row with this id exist?  (Used for foreign-key checks on
columns referencing rooms(id).) -/
def roomExists (db : DB) (roomId : Int) : Bool :=
  db.rooms.any (fun r => r.id == roomId)

/-- GameDatabase::MarkActionCompleted: `INSERT OR IGNORE INTO
completed_actions (action_id) VALUES (?)`. -/
def markActionCompleted (actionId : Int) (db : DB) : DB :=
  { db with completedActions := insertIfAbsent actionId db.completedActions }

/-- GameDatabase::IsActionCompleted: `SELECT 1 FROM completed_actions WHERE
action_id = ?` — true iff the query returns a row. -/
def isActionCompleted (db : DB) (actionId : Int) : Bool :=
  db.completedActions.contains actionId

/-- GameDatabase::SetItemVisibility: visible inserts into `revealed_items`
(OR IGNORE); hidden deletes from it. -/
def setItemVisibility (itemId : Int) (visible : Bool) (db : DB) : DB :=
  if visible then
    { db with revealedItems := insertIfAbsent itemId db.revealedItems }
  else
    { db with revealedItems := db.revealedItems.filter (fun i => !(i == itemId)) }

/-- GameDatabase::RemoveItemFromRoom: `INSERT OR IGNORE INTO removed_items
(item_id) VALUES (?)` — the placement row is retained. -/
def removeItemFromRoom (itemId : Int) (db : DB) : DB :=
  { db with removedItems := insertIfAbsent itemId db.removedItems }

/-- GameDatabase::UnlockExit: `INSERT OR IGNORE INTO unlocked_exits
(room_id, direction) VALUES (?, ?)` with UNIQUE(room_id, direction). -/
def unlockExit (roomId : Int) (direction : String) (db : DB) : DB :=
  { db with unlockedExits := insertIfAbsent (roomId, direction) db.unlockedExits }

/-- GameDatabase::IsExitLocked: the query returns a row iff an
`exit_conditions` row matches (room_id, direction) and no `unlocked_exits`
row matches the same pair; locked = a row was returned.  The `is_locked`
column is selected but not filtered on, exactly as in the SQL. -/
def isExitLocked (db : DB) (roomId : Int) (direction : String) : Bool :=
  db.exitConditions.any (fun ec =>
    ec.roomId == roomId && ec.direction == direction &&
      !(db.unlockedExits.any (fun ue => ue.1 == ec.roomId && ue.2 == ec.direction)))

/-- GameDatabase::IsExitLocked at the handle level: `if (!fDatabase) return
false;`. -/
def GameDatabaseHandle.isExitLocked (h : GameDatabaseHandle) (roomId : Int)
    (direction : String) : Bool :=
  match h.db with
  | none => false
  | some db => Pathfinder.isExitLocked db roomId direction

/-- GameDatabase::IsActionCompleted at the handle level: `if (!fDatabase)
return false;`. -/
def GameDatabaseHandle.isActionCompleted (h : GameDatabaseHandle)
    (actionId : Int) : Bool :=
  match h.db with
  | none => false
  | some db => Pathfinder.isActionCompleted db actionId

/-- GameDatabase::MoveToRoom: `UPDATE game_state SET current_room_id = ?,
moves_count = moves_count + 1 WHERE id = 1`.  Under foreign-key enforcement
the update fails (no change) if the new room does not exist; with no
game_state row the update matches nothing and succeeds. -/
def moveToRoom (fk : Bool) (newRoomId : Int) (db : DB) : DB :=
  match db.gameState with
  | none => db
  | some gs =>
    if fk && !(roomExists db newRoomId) then db
    else { db with gameState := some { gs with
      currentRoomId := newRoomId, movesCount := gs.movesCount + 1 } }

/-- GameDatabase::MoveItemToInventory: `UPDATE item_locations SET room_id =
NULL WHERE item_id = ?`. -/
def moveItemToInventory (itemId : Int) (db : DB) : DB :=
  { db with itemLocations :=
      db.itemLocations.map (fun p => if p.1 == itemId then (p.1, none) else p) }

/-- GameDatabase::MoveItemToRoom: `UPDATE item_locations SET room_id = ?
WHERE item_id = ?`.  Under foreign-key enforcement the update fails if it
matches a row and the target room does not exist. -/
def moveItemToRoom (fk : Bool) (itemId roomId : Int) (db : DB) : DB :=
  if fk && db.itemLocations.any (fun p => p.1 == itemId)
      && !(roomExists db roomId) then db
  else
    { db with itemLocations :=
        db.itemLocations.map (fun p => if p.1 == itemId then (p.1, some roomId) else p) }

/-- GameDatabase::SaveCurrentStateAsInitial: truncate
`item_locations_initial` and copy every live `item_locations` row into it. -/
def saveCurrentStateAsInitial (db : DB) : DB :=
  { db with itemLocationsInitial := db.itemLocations }

/-- GameDatabase::ClearGameState.  The SQL batch is executed by one
`sqlite3_exec` with NO enclosing transaction, statement by statement:
four DELETEs on the event logs, `DELETE FROM item_locations`, the
`INSERT INTO item_locations ... SELECT ... FROM item_locations_initial`,
and finally the `UPDATE game_state` that sets current_room_id to the
metadata starting room, score 0, health 100, moves 0 and a fresh start
time `now`.  The deletes and the copy never violate a constraint; the
final update fails under foreign-key enforcement when the metadata
starting room no longer exists (game_state.current_room_id references
rooms(id)).  On that failure `sqlite3_exec` stops, but the earlier
statements are already committed: the returned pair is (resulting state,
success flag). -/
def clearGameState (fk : Bool) (now : Int) (db : DB) : DB × Bool :=
  let cleared : DB := { db with
    completedActions := [],
    removedItems := [],
    revealedItems := [],
    unlockedExits := [],
    itemLocations := db.itemLocationsInitial }
  match db.gameState with
  | none => (cleared, true)
  | some _ =>
    if fk && !(roomExists db db.startingRoomId) then (cleared, false)
    else
      let gs : GameStateRow :=
        { currentRoomId := db.startingRoomId, score := 0, health := 100,
          movesCount := 0, startTime := now }
      ({ cleared with gameState := some gs }, true)

/-- GameEditor::CreateItem: `INSERT INTO items (name, description,
room_description, can_take, can_use) VALUES (?, ?, ?, ?, ?)`; the new id is
`sqlite3_last_insert_rowid`.  No `item_locations` row is inserted.
Returns (new store, new item id). -/
def createItem (name description roomDescription : String)
    (canTake canUse : Bool) (db : DB) : DB × Int :=
  let newId := db.itemSeq + 1
  let row : ItemRow :=
    { id := newId, name := name, description := description,
      roomDescription := some roomDescription, canTake := canTake,
      canUse := canUse }
  ({ db with items := db.items ++ [row], itemSeq := newId }, newId)

/-- GameEditor::PlaceItem: `INSERT OR REPLACE INTO item_locations (item_id,
room_id) VALUES (?, ?)` — any existing row for the item is replaced.  Under
foreign-key enforcement the statement fails when the item or the room does
not exist. -/
def placeItem (fk : Bool) (itemId roomId : Int) (db : DB) : DB :=
  if fk && !(db.items.any (fun it => it.id == itemId) && roomExists db roomId) then
    db
  else
    { db with itemLocations :=
        db.itemLocations.filter (fun p => !(p.1 == itemId)) ++ [(itemId, some roomId)] }

/-- GameEditor::DeleteItem: `DELETE FROM items WHERE id = ?`.  The in-code
comment says `CASCADE will handle item_locations`; the ON DELETE actions of
kSchemaSQL fire only when the connection enforces foreign keys.  With
enforcement: item_locations / item_locations_initial / removed_items /
revealed_items rows for the item, item_combinations rows naming it in any
of the three columns, item_actions rows with it as item or target (and the
completed_actions rows of those actions, a second-level cascade) are
deleted, and exit_conditions.required_item_id referencing it is set NULL.
Without enforcement only the items row is deleted. -/
def deleteItem (fk : Bool) (itemId : Int) (db : DB) : DB :=
  let base := { db with items := db.items.filter (fun it => !(it.id == itemId)) }
  if fk then
    let deadActions := db.itemActions.filter (fun a =>
      a.itemId == itemId || a.targetItemId == some itemId)
    { base with
      itemLocations := db.itemLocations.filter (fun p => !(p.1 == itemId)),
      itemLocationsInitial :=
        db.itemLocationsInitial.filter (fun p => !(p.1 == itemId)),
      itemCombinations := db.itemCombinations.filter (fun c =>
        !(c.item1Id == itemId || c.item2Id == itemId || c.resultItemId == itemId)),
      itemActions := db.itemActions.filter (fun a =>
        !(a.itemId == itemId || a.targetItemId == some itemId)),
      completedActions := db.completedActions.filter (fun cid =>
        !(deadActions.any (fun a => a.id == cid))),
      removedItems := db.removedItems.filter (fun i => !(i == itemId)),
      revealedItems := db.revealedItems.filter (fun i => !(i == itemId)),
      exitConditions := db.exitConditions.map (fun ec =>
        if ec.requiredItemId == some itemId then
          { ec with requiredItemId := none } else ec) }
  else base

/-- The statements of GameEditor::DeleteRoom that can fail after the
transaction has begun (prepare failures of the fixed statement strings are
not modelled). -/
inductive DeleteRoomStep
  | redirect
  | clearNorth
  | clearSouth
  | clearEast
  | clearWest
  | deleteRow
deriving Repr, DecidableEq

/-- Deleting the `rooms` row itself, with the cascades of kSchemaSQL when
the connection enforces foreign keys: exit_conditions, unlocked_exits,
item_locations, item_locations_initial and item_actions rows of that room
are deleted (and completed_actions rows of the deleted actions). -/
def removeRoomRow (fk : Bool) (roomId : Int) (db : DB) : DB :=
  let base := { db with rooms := db.rooms.filter (fun r => !(r.id == roomId)) }
  if fk then
    let deadActions := db.itemActions.filter (fun a => a.roomId == some roomId)
    { base with
      exitConditions := db.exitConditions.filter (fun ec => !(ec.roomId == roomId)),
      unlockedExits := db.unlockedExits.filter (fun ue => !(ue.1 == roomId)),
      itemLocations := db.itemLocations.filter (fun p => !(p.2 == some roomId)),
      itemLocationsInitial :=
        db.itemLocationsInitial.filter (fun p => !(p.2 == some roomId)),
      itemActions := db.itemActions.filter (fun a => !(a.roomId == some roomId)),
      completedActions := db.completedActions.filter (fun cid =>
        !(deadActions.any (fun a => a.id == cid))) }
  else base

/-- Nulling one directional column: `UPDATE rooms SET <dir>_room_id = NULL
WHERE <dir>_room_id = ?`. -/
def clearNorthRefs (roomId : Int) (rooms : List RoomRow) : List RoomRow :=
  rooms.map (fun q =>
    if q.northRoomId == some roomId then { q with northRoomId := none } else q)

/-- See `clearNorthRefs`. -/
def clearSouthRefs (roomId : Int) (rooms : List RoomRow) : List RoomRow :=
  rooms.map (fun q =>
    if q.southRoomId == some roomId then { q with southRoomId := none } else q)

/-- See `clearNorthRefs`. -/
def clearEastRefs (roomId : Int) (rooms : List RoomRow) : List RoomRow :=
  rooms.map (fun q =>
    if q.eastRoomId == some roomId then { q with eastRoomId := none } else q)

/-- See `clearNorthRefs`. -/
def clearWestRefs (roomId : Int) (rooms : List RoomRow) : List RoomRow :=
  rooms.map (fun q =>
    if q.westRoomId == some roomId then { q with westRoomId := none } else q)

/-- Steps 3 and 4 of GameEditor::DeleteRoom: null the four directional
references to the room in every room, then delete the rooms row; `fail`
says which step fails.  Any failure triggers ROLLBACK, so the caller state
`db0` (the state at BEGIN) is returned with `false`. -/
def deleteRoomBody (fail : DeleteRoomStep → Bool) (fk : Bool) (roomId : Int)
    (db0 g : DB) : DB × Bool :=
  if fail .clearNorth then (db0, false) else
  let g1 := { g with rooms := clearNorthRefs roomId g.rooms }
  if fail .clearSouth then (db0, false) else
  let g2 := { g1 with rooms := clearSouthRefs roomId g1.rooms }
  if fail .clearEast then (db0, false) else
  let g3 := { g2 with rooms := clearEastRefs roomId g2.rooms }
  if fail .clearWest then (db0, false) else
  let g4 := { g3 with rooms := clearWestRefs roomId g3.rooms }
  if fail .deleteRow then (db0, false) else
  (removeRoomRow fk roomId g4, true)

/-- GameEditor::DeleteRoom.  Inside a BEGIN/COMMIT transaction: if the
game_state row exists and currently points at the room, redirect it to the
first room with a different id (`SELECT id FROM rooms WHERE id != ? LIMIT
1`); with no such room the delete fails (cannot delete the last room) and
rolls back.  If game_state does not point at the room (or there is no
game_state row) the guard is skipped.  Then the four directional-reference
updates and the row deletion run (`deleteRoomBody`); every failure path
issues ROLLBACK, restoring the pre-operation state. -/
def deleteRoom (fail : DeleteRoomStep → Bool) (fk : Bool) (roomId : Int)
    (db : DB) : DB × Bool :=
  match db.gameState with
  | none => deleteRoomBody fail fk roomId db db
  | some gs =>
    if gs.currentRoomId == roomId then
      match db.rooms.find? (fun q => !(q.id == roomId)) with
      | none => (db, false)
      | some other =>
        if fail .redirect then (db, false)
        else
          deleteRoomBody fail fk roomId db
            { db with gameState := some { gs with currentRoomId := other.id } }
    else deleteRoomBody fail fk roomId db db

/-- No step of `deleteRoom` fails: the happy path of the transaction. -/
def noFail : DeleteRoomStep → Bool := fun _ => false

/-- Outcome of MainWindow::_UseItem, abstracting the four alert paths. -/
inductive UseItemResult
  | actionFired (message : String)
  | actionFailed
  | alreadyUsed
  | noActionMessage (message : String)
deriving Repr, DecidableEq

/-- GameDatabase::GetItemActions: `SELECT ... FROM item_actions WHERE
item_id = ? AND (room_id = ? OR room_id IS NULL)` in table order. -/
def getItemActions (db : DB) (itemId roomId : Int) : List ActionRow :=
  db.itemActions.filter (fun a =>
    a.itemId == itemId && (a.roomId == some roomId || a.roomId == none))

/-- MainWindow::_ExecuteItemAction.  Dispatch on action_type:
`reveal_item` and `remove_item` require a positive target item id (the
C++ guard `action.targetItemId > 0`; a NULL column leaves the struct
default, which is not positive), `unlock_exit` requires a nonempty target
direction; anything else is an unknown action type.  On success the empty
success message is replaced by a per-kind default, the action is marked
completed and, when `consumes_item` is set, the ACTING item is removed;
on failure nothing is mutated.  `unlock_exit` unlocks `fCurrentRoom.id`,
the window cached copy of the game-state current room, passed here as
`currentRoomId`. -/
def executeItemAction (db : DB) (currentRoomId : Int) (a : ActionRow) :
    DB × UseItemResult :=
  let baseMsg := (a.successMessage).getD ""
  let fire : DB → String → DB × UseItemResult := fun db1 defaultMsg =>
    let msg := if baseMsg.length == 0 then defaultMsg else baseMsg
    let db2 := markActionCompleted a.id db1
    if a.consumesItem then
      (removeItemFromRoom a.itemId db2,
        .actionFired (msg ++ "\n\nThe item was consumed."))
    else (db2, .actionFired msg)
  if a.actionType == "reveal_item" then
    match a.targetItemId with
    | some t =>
      if t > 0 then
        fire (setItemVisibility t true db) "Something new has been revealed!"
      else (db, .actionFailed)
    | none => (db, .actionFailed)
  else if a.actionType == "remove_item" then
    match a.targetItemId with
    | some t =>
      if t > 0 then
        fire (removeItemFromRoom t db) "The item has been removed."
      else (db, .actionFailed)
    | none => (db, .actionFailed)
  else if a.actionType == "unlock_exit" then
    match a.targetDirection with
    | some d =>
      if d.length > 0 then
        fire (unlockExit currentRoomId d db) "The way is now open!"
      else (db, .actionFailed)
    | none => (db, .actionFailed)
  else (db, .actionFailed)

/-- The current room as _UseItem sees it: `GetGameState` is called with its
status ignored, so with no game_state row the GameState struct keeps its
default currentRoomId = 1. -/
def currentRoomOf (db : DB) : Int :=
  match db.gameState with
  | some gs => gs.currentRoomId
  | none => 1

/-- The fallback branch of MainWindow::_UseItem: the items static use
message if nonempty (the C++ looks the item up in the cached inventory
list; modelled as a lookup in `items`), else a generic message. -/
def fallbackUseMessage (db : DB) (itemId : Int) : String :=
  match db.items.find? (fun it => it.id == itemId) with
  | some it =>
    match it.useMessage with
    | some m => if m.length > 0 then m else "You can\x27t use that here."
    | none => "You can\x27t use that here."
  | none => "You can\x27t use that here."

/-- MainWindow::_UseItem.  Fetch the actions for (item, current room or
global); if any exist, execute the FIRST whose id is not in
completed_actions and stop, or report the already-used alert when none
remains; with no actions at all, report the fallback use message. -/
def useItem (db : DB) (itemId : Int) : DB × UseItemResult :=
  if (getItemActions db itemId (currentRoomOf db)).length > 0 then
    match (getItemActions db itemId (currentRoomOf db)).find?
        (fun a => !(isActionCompleted db a.id)) with
    | some a => executeItemAction db (currentRoomOf db) a
    | none => (db, .alreadyUsed)
  else
    (db, .noActionMessage (fallbackUseMessage db itemId))

/-- Is some already-positioned room at cell (x, y)?  (The scan over the
`positions` map in GameEditor::AutoLayoutRooms.) -/
def occupiedAt (positions : List (Int × Int × Int)) (x y : Int) : Bool :=
  positions.any (fun p => p.2.1 == x && p.2.2 == y)

/-- The probe loop `for (int offset = 1; offset < 10; offset++)`: the first
offset in 1..9 whose cell (baseX + offset, y) is free, if any. -/
def firstFreeOffset (positions : List (Int × Int × Int)) (baseX y : Int) :
    List Nat → Option Nat
  | [] => none
  | o :: rest =>
    if occupiedAt positions (baseX + (o : Int)) y then
      firstFreeOffset positions baseX y rest
    else some o

/-- The offsets 1..9 tried by the probe loop. -/
def probeOffsets : List Nat := (List.range 9).map (fun k => k + 1)

/-- The x coordinate at which AutoLayoutRooms places a neighbour whose
target cell is (baseX, y) with baseX = currentX + dx: the target itself if
free; otherwise the first free cell among baseX+1 .. baseX+9; if all nine
probes are occupied too, the loop falls through and the LAST probed x,
baseX + 9, is used even though it is occupied. -/
def placeX (positions : List (Int × Int × Int)) (baseX y : Int) : Int :=
  if occupiedAt positions baseX y then
    match firstFreeOffset positions baseX y probeOffsets with
    | some o => baseX + (o : Int)
    | none => baseX + 9
  else baseX

/-- The four connections of a room in the order the C++ array lists them:
north (0,-1), south (0,1), east (1,0), west (-1,0).  A NULL column reads as
0 through sqlite3_column_int and is rejected by the `connectedId > 0`
guard, which the `Option`/positivity test mirrors. -/
def roomConnections (r : RoomRow) : List (Option Int × Int × Int) :=
  [(r.northRoomId, (0 : Int), (-1 : Int)), (r.southRoomId, 0, 1),
    (r.eastRoomId, 1, 0), (r.westRoomId, -1, 0)]

/-- Processing one connection of the dequeued room at (cx, cy): an unvisited
positive neighbour id is placed at `placeX`, marked visited and enqueued.
State: (visited ids, positions, queue). -/
def layoutStep (cx cy : Int)
    (st : List Int × List (Int × Int × Int) × List Int)
    (c : Option Int × Int × Int) :
    List Int × List (Int × Int × Int) × List Int :=
  match c.1 with
  | none => st
  | some cid =>
    if cid > 0 && !(st.1.contains cid) then
      let newY := cy + c.2.2
      let newX := placeX st.2.1 (cx + c.2.1) newY
      (st.1 ++ [cid], st.2.1 ++ [(cid, newX, newY)], st.2.2 ++ [cid])
    else st

/-- The BFS loop of GameEditor::AutoLayoutRooms, fuelled for termination
(the queue only ever receives ids that were just marked visited, so any
fuel of at least the number of rooms plus one suffices in practice).  A
dequeued id with no rooms row is skipped. -/
def layoutLoop (rooms : List RoomRow) : Nat → List Int → List Int →
    List (Int × Int × Int) → List (Int × Int × Int)
  | 0, _, _, positions => positions
  | _ + 1, [], _, positions => positions
  | fuel + 1, currentId :: rest, visited, positions =>
    match rooms.find? (fun r => r.id == currentId) with
    | none => layoutLoop rooms fuel rest visited positions
    | some room =>
      let cx := (positions.find? (fun p => p.1 == currentId)).elim 0 (fun p => p.2.1)
      let cy := (positions.find? (fun p => p.1 == currentId)).elim 0 (fun p => p.2.2)
      let st := (roomConnections room).foldl (layoutStep cx cy)
        (visited, positions, rest)
      layoutLoop rooms fuel st.2.2 st.1 st.2.1

/-- GameEditor::AutoLayoutRooms on the adjacency stored in `rooms`: the
start room is placed at (0,0), marked visited, enqueued, and the BFS runs.
The result is the final `positions` map (room id, x, y); the database
write-back stores these scaled by 100, which does not affect which rooms
share a cell. -/
def autoLayoutRooms (rooms : List RoomRow) (startRoomId : Int) (fuel : Nat) :
    List (Int × Int × Int) :=
  layoutLoop rooms fuel [startRoomId] [startRoomId] [(startRoomId, 0, 0)]

/-- The position assigned to a room by the layout result, if any. -/
def posOf (positions : List (Int × Int × Int)) (roomId : Int) :
    Option (Int × Int) :=
  (positions.find? (fun p => p.1 == roomId)).map (fun p => p.2)

/-- Room 1 of GameDatabase::_CreateStarterContent (after the linking
UPDATE `south_room_id = 2`). -/
def starterRoom1 : RoomRow :=
  { id := 1, name := "Dark Cave",
    description := "You are in a dark, damp cave. The walls glisten with moisture. A narrow passage leads south.",
    southRoomId := some 2, graphX := 0, graphY := 0 }

/-- Room 2 of GameDatabase::_CreateStarterContent (after the linking
UPDATE `north_room_id = 1`). -/
def starterRoom2 : RoomRow :=
  { id := 2, name := "Mountain Path",
    description := "You stand on a narrow mountain path. The cave entrance is to the north. Steep cliffs drop away on either side.",
    northRoomId := some 1, graphX := 0, graphY := 100 }

/-- The store produced by GameDatabase::CreateNew: schema plus the starter
content of _CreateStarterContent (two rooms, stone and stick placed in room
2, matching initial placements, game state starting in room 1, metadata
starting_room_id 1).  The creation wall-clock time is taken as 0. -/
def starterDB : DB :=
  { rooms := [starterRoom1, starterRoom2],
    items :=
      [{ id := 1, name := "Stone", description := "A smooth, palm-sized stone.",
         roomDescription := some "A smooth stone lies on the ground.",
         canTake := true, canUse := false },
       { id := 2, name := "Stick",
         description := "A sturdy wooden stick, good for poking things.",
         roomDescription := some "A wooden stick rests against a rock.",
         canTake := true, canUse := false }],
    itemLocations := [(1, some 2), (2, some 2)],
    itemLocationsInitial := [(1, some 2), (2, some 2)],
    gameState := some { currentRoomId := 1, startTime := 0 },
    startingRoomId := 1,
    itemSeq := 2 }

/-- The store reached from `starterDB`, on the creating (foreign keys ON)
connection, by deleting room 1 — DeleteRoom redirects the game state to
room 2 and succeeds, but game_metadata starting_room_id still says 1 —
and then unlocking the exit (2, north), so that the event logs are
nonempty. -/
def c1PreState : DB :=
  unlockExit 2 "north" (deleteRoom noFail true 1 starterDB).1

/-- A store whose only uncompleted item action is a `reveal_item` action
with no target item (CreateItemAction binds NULL when no target is
supplied): action 1 on item 5, scoped to room 7, where the player stands. -/
def c4DB : DB :=
  { rooms := [{ id := 7, name := "Cell", description := "Bare walls." }],
    items := [{ id := 5, name := "Key", description := "A small key." }],
    itemLocations := [(5, none)],
    itemActions := [{ id := 1, itemId := 5, roomId := some 7,
                      actionType := "reveal_item" }],
    gameState := some { currentRoomId := 7 },
    startingRoomId := 7,
    itemSeq := 5 }

/-- A room carrying only an id and adjacency, for layout graphs. -/
def layoutRoom (id : Int) (n s e w : Option Int) : RoomRow :=
  { id := id, name := "", description := "", northRoomId := n,
    southRoomId := s, eastRoomId := e, westRoomId := w }

/-- An adjacency graph on which the collision probe of AutoLayoutRooms is
exhausted.  Room 1 starts at (0,0); rooms 10..19 form a south-then-east
chain occupying cells (0,1)..(9,1); rooms 21..32 form a twelve-step detour
west and south of the start that ends at room 32 on cell (0,2); room 32
has room 40 as its north neighbour, whose target cell (0,1) and all nine
probed cells (1,1)..(9,1) are occupied by the time room 32 is dequeued. -/
def c3Rooms : List RoomRow :=
  [layoutRoom 1 none (some 10) none (some 21),
    layoutRoom 10 none none (some 11) none,
    layoutRoom 11 none none (some 12) none,
    layoutRoom 12 none none (some 13) none,
    layoutRoom 13 none none (some 14) none,
    layoutRoom 14 none none (some 15) none,
    layoutRoom 15 none none (some 16) none,
    layoutRoom 16 none none (some 17) none,
    layoutRoom 17 none none (some 18) none,
    layoutRoom 18 none none (some 19) none,
    layoutRoom 19 none none none none,
    layoutRoom 21 none (some 22) none none,
    layoutRoom 22 none (some 23) none none,
    layoutRoom 23 none (some 24) none none,
    layoutRoom 24 none none (some 25) none,
    layoutRoom 25 none none (some 26) none,
    layoutRoom 26 none none (some 27) none,
    layoutRoom 27 none none (some 28) none,
    layoutRoom 28 (some 29) none none none,
    layoutRoom 29 none none none (some 30),
    layoutRoom 30 none none none (some 31),
    layoutRoom 31 none none none (some 32),
    layoutRoom 32 (some 40) none none none,
    layoutRoom 40 none none none none]

/-! ### Helper lemmas -/

theorem mem_insertIfAbsent {α : Type} [DecidableEq α] (x : α) (l : List α) :
    x ∈ insertIfAbsent x l := by
  unfold insertIfAbsent
  split_ifs with h
  · exact h
  · simp

theorem insertIfAbsent_idem {α : Type} [DecidableEq α] (x : α) (l : List α) :
    insertIfAbsent x (insertIfAbsent x l) = insertIfAbsent x l := by
  by_cases h : x ∈ l <;> simp [insertIfAbsent, h]

theorem insertIfAbsent_of_not_mem {α : Type} [DecidableEq α] {x : α}
    {l : List α} (h : x ∉ l) : insertIfAbsent x l = l ++ [x] := by
  unfold insertIfAbsent
  simp [h]

/-! ### C9 — idempotence of the event-log mutations -/

/-- C9: MarkActionCompleted, SetItemVisibility(item, true) and UnlockExit
are INSERT OR IGNORE into keyed event logs: performing each twice in a row
leaves the store in the same state as performing it once (and the modelled
operations are total, so the second invocation reports success just as the
first does). -/
theorem eventLog_ops_idempotent (db : DB) (actionId itemId roomId : Int)
    (direction : String) :
    markActionCompleted actionId (markActionCompleted actionId db) =
      markActionCompleted actionId db ∧
    setItemVisibility itemId true (setItemVisibility itemId true db) =
      setItemVisibility itemId true db ∧
    unlockExit roomId direction (unlockExit roomId direction db) =
      unlockExit roomId direction db := by
  refine ⟨?_, ?_, ?_⟩ <;>
    simp [markActionCompleted, setItemVisibility, unlockExit, insertIfAbsent_idem]

/-! ### C10 — boolean queries on a closed handle -/

/-- C10: with no store open (`fDatabase == nullptr`), IsExitLocked and
IsActionCompleted both return false rather than an error; an open empty
store returns the same two values, so a caller cannot distinguish "not
initialized" from "exit unlocked" / "action not completed" through these
queries. -/
theorem closed_handle_queries_false (fk : Bool) (roomId actionId : Int)
    (direction : String) :
    GameDatabaseHandle.isExitLocked ⟨none, fk⟩ roomId direction = false ∧
    GameDatabaseHandle.isActionCompleted ⟨none, fk⟩ actionId = false ∧
    GameDatabaseHandle.isExitLocked ⟨some {}, fk⟩ roomId direction = false ∧
    GameDatabaseHandle.isActionCompleted ⟨some {}, fk⟩ actionId = false :=
  ⟨rfl, rfl, rfl, rfl⟩

/-! ### C5 — locked state is computed from the two tables -/

theorem isExitLocked_factored (db : DB) (roomId : Int) (direction : String) :
    isExitLocked db roomId direction =
      (db.exitConditions.any (fun ec =>
          ec.roomId == roomId && ec.direction == direction) &&
        !(db.unlockedExits.any (fun ue =>
          ue.1 == roomId && ue.2 == direction))) := by
  rw [Bool.eq_iff_iff]
  simp only [isExitLocked, List.any_eq_true, Bool.and_eq_true, Bool.not_eq_true',
    List.any_eq_false, beq_iff_eq]
  constructor
  · rintro ⟨ec, hmem, ⟨hr, hd⟩, hno⟩
    subst hr
    subst hd
    exact ⟨⟨ec, hmem, rfl, rfl⟩, hno⟩
  · rintro ⟨⟨ec, hmem, hr, hd⟩, hno⟩
    subst hr
    subst hd
    exact ⟨ec, hmem, ⟨rfl, rfl⟩, hno⟩

theorem unlockExit_mem (db : DB) (roomId : Int) (direction : String) :
    (unlockExit roomId direction db).unlockedExits.any (fun ue =>
      ue.1 == roomId && ue.2 == direction) = true := by
  simp only [unlockExit, List.any_eq_true]
  exact ⟨(roomId, direction), mem_insertIfAbsent _ _, by simp⟩

/-- C5: IsExitLocked returns true iff an exit_conditions row exists for
(room, direction) and no unlocked_exits row exists for the same pair
(stated as the boolean factorisation of the query); consequently an exit
with no exit_conditions row is never reported locked, and immediately
after UnlockExit(room, direction) the exit is reported unlocked. -/
theorem isExitLocked_iff_condition_and_not_unlocked (db : DB) (roomId : Int)
    (direction : String) :
    (isExitLocked db roomId direction =
      (db.exitConditions.any (fun ec =>
          ec.roomId == roomId && ec.direction == direction) &&
        !(db.unlockedExits.any (fun ue =>
          ue.1 == roomId && ue.2 == direction)))) ∧
    isExitLocked (unlockExit roomId direction db) roomId direction = false := by
  refine ⟨isExitLocked_factored db roomId direction, ?_⟩
  rw [isExitLocked_factored, unlockExit_mem]
  simp [unlockExit]

/-! ### C6 — reset idempotence and snapshot equality -/

/-- C6: when the reset succeeds, running ClearGameState a second time in a
row (same clock reading, as "in a row" implies) produces exactly the same
store and again succeeds, and the live placements after the reset are
precisely the rows of the Initial-Placement snapshot. -/
theorem clearGameState_idempotent (db : DB) (fk : Bool) (now : Int)
    (h : (clearGameState fk now db).2 = true) :
    clearGameState fk now (clearGameState fk now db).1 =
      clearGameState fk now db ∧
    (clearGameState fk now db).1.itemLocations = db.itemLocationsInitial := by
  cases hgs : db.gameState with
  | none =>
    simp [clearGameState, hgs]
  | some gs =>
    have hcond : (fk && !(roomExists db db.startingRoomId)) = false := by
      by_contra hc
      rw [Bool.not_eq_false] at hc
      rw [clearGameState] at h
      simp only [hgs] at h
      rw [if_pos hc] at h
      exact Bool.false_ne_true h
    have e1 : clearGameState fk now db =
        ({ db with
            completedActions := [], removedItems := [], revealedItems := [],
            unlockedExits := [], itemLocations := db.itemLocationsInitial,
            gameState := some { currentRoomId := db.startingRoomId, score := 0,
                                health := 100, movesCount := 0, startTime := now } },
          true) := by
      rw [clearGameState]
      simp only [hgs]
      rw [if_neg (by simp [hcond])]
    refine ⟨?_, by simp [e1]⟩
    rw [e1]
    simp only [clearGameState, roomExists] at hcond ⊢
    simp [hcond]

/-- C6 witness: the reset succeeds on the starter store and the theorem
applies there. -/
theorem clearGameState_idempotent_witness :
    (clearGameState true 5 starterDB).2 = true ∧
    (clearGameState true 5 (clearGameState true 5 starterDB).1 =
        clearGameState true 5 starterDB ∧
      (clearGameState true 5 starterDB).1.itemLocations =
        starterDB.itemLocationsInitial) :=
  ⟨by decide, clearGameState_idempotent starterDB true 5 (by decide)⟩

/-! ### C1 — ClearGameState is sequential, not atomic -/

/-- C1 counterexample: on the creating connection (foreign keys ON), after
deleting the starting room (DeleteRoom never updates game_metadata, so
starting_room_id still names the deleted room) and unlocking one exit,
ClearGameState fails at its final UPDATE — yet the store is NOT left in
its pre-operation state: the unlocked_exits log has already been cleared
by the earlier, individually committed DELETE statements. -/
theorem clearGameState_not_atomic_counterexample :
    (clearGameState true 77 c1PreState).2 = false ∧
    c1PreState.unlockedExits = [(2, "north")] ∧
    (clearGameState true 77 c1PreState).1.unlockedExits = [] ∧
    ¬ ((clearGameState true 77 c1PreState).1 = c1PreState) := by decide

/-- C1 amended: ClearGameState executes its batch statement by statement
with no enclosing transaction.  In every outcome the four event logs are
cleared and the live placements are replaced by the Initial-Placement
snapshot (so no failure of the modelled, constraint-level kind leaves the
live placements empty while the logs are cleared); if the batch fails — it
fails exactly at the final game_state UPDATE, when foreign keys are
enforced and the metadata starting room does not exist — the earlier
statements remain committed and game_state keeps its old value, so the
store is not restored to its pre-operation state; on success game_state is
reset to (starting room, score 0, health 100, moves 0, fresh start time).
-/
theorem clearGameState_sequential (fk : Bool) (now : Int) (db : DB) :
    (clearGameState fk now db).1.completedActions = [] ∧
    (clearGameState fk now db).1.removedItems = [] ∧
    (clearGameState fk now db).1.revealedItems = [] ∧
    (clearGameState fk now db).1.unlockedExits = [] ∧
    (clearGameState fk now db).1.itemLocations = db.itemLocationsInitial ∧
    ((clearGameState fk now db).2 = false →
      (clearGameState fk now db).1.gameState = db.gameState ∧
      (fk = true ∧ roomExists db db.startingRoomId = false)) ∧
    ((clearGameState fk now db).2 = true → db.gameState.isSome = true →
      (clearGameState fk now db).1.gameState =
        some { currentRoomId := db.startingRoomId, score := 0, health := 100,
               movesCount := 0, startTime := now }) := by
  cases hgs : db.gameState with
  | none =>
    simp [clearGameState, hgs]
  | some gs =>
    by_cases hcond : (fk && !(roomExists db db.startingRoomId)) = true
    · have e1 : clearGameState fk now db =
          ({ db with
              completedActions := [], removedItems := [], revealedItems := [],
              unlockedExits := [], itemLocations := db.itemLocationsInitial },
            false) := by
        rw [clearGameState]
        simp only [hgs]
        rw [if_pos hcond]
      rcases Bool.and_eq_true _ _ |>.mp hcond with ⟨hfk, hne⟩
      rw [Bool.not_eq_true'] at hne
      simp only [e1]
      simp [hgs, hfk, hne]
    · have hcond' : (fk && !(roomExists db db.startingRoomId)) = false :=
        Bool.not_eq_true _ |>.mp hcond
      have e1 : clearGameState fk now db =
          ({ db with
              completedActions := [], removedItems := [], revealedItems := [],
              unlockedExits := [], itemLocations := db.itemLocationsInitial,
              gameState := some { currentRoomId := db.startingRoomId, score := 0,
                                  health := 100, movesCount := 0,
                                  startTime := now } },
            true) := by
        rw [clearGameState]
        simp only [hgs]
        rw [if_neg (by simp [hcond'])]
      simp [e1]

/-- C1 witness: the amended theorem applied at the failing store
`c1PreState` (foreign keys ON, starting room deleted) and at the starter
store, where the reset succeeds. -/
theorem clearGameState_sequential_witness :
    ((clearGameState true 77 c1PreState).1.unlockedExits = [] ∧
      (clearGameState true 77 c1PreState).1.gameState = c1PreState.gameState) ∧
    (clearGameState true 5 starterDB).1.gameState =
      some { currentRoomId := 1, score := 0, health := 100, movesCount := 0,
             startTime := 5 } := by
  refine ⟨⟨(clearGameState_sequential true 77 c1PreState).2.2.2.1, ?_⟩, ?_⟩
  · exact ((clearGameState_sequential true 77 c1PreState).2.2.2.2.2.1
      (by decide)).1
  · have h := (clearGameState_sequential true 5 starterDB).2.2.2.2.2.2
      (by decide) (by decide)
    simpa using h

/-! ### C2 — placement multiplicity under the play/edit operations -/

/-- The operations the placement claim ranges over: item creation
(GameEditor::CreateItem), placing (GameEditor::PlaceItem), taking
(GameDatabase::MoveItemToInventory), dropping
(GameDatabase::MoveItemToRoom), removing (GameDatabase::RemoveItemFromRoom)
and reset (GameDatabase::ClearGameState). -/
inductive PlayerOp
  | createOp (name description roomDescription : String) (canTake canUse : Bool)
  | placeOp (itemId roomId : Int)
  | takeOp (itemId : Int)
  | dropOp (itemId roomId : Int)
  | removeOp (itemId : Int)
  | resetOp (now : Int)
deriving Repr, DecidableEq

/-- Run one operation on the store (the state after the call, whether or
not the call reported success). -/
def applyOp (fk : Bool) (db : DB) : PlayerOp → DB
  | .createOp n d rd ct cu => (createItem n d rd ct cu db).1
  | .placeOp i r => placeItem fk i r db
  | .takeOp i => moveItemToInventory i db
  | .dropOp i r => moveItemToRoom fk i r db
  | .removeOp i => removeItemFromRoom i db
  | .resetOp t => (clearGameState fk t db).1

/-- Run a sequence of operations. -/
def applyOps (fk : Bool) (ops : List PlayerOp) (db : DB) : DB :=
  ops.foldl (applyOp fk) db

/-- The PRIMARY KEY (item_id) of item_locations and item_locations_initial:
each item id occurs on at most one row. -/
def placementWF (db : DB) : Prop :=
  (db.itemLocations.map Prod.fst).Nodup ∧
    (db.itemLocationsInitial.map Prod.fst).Nodup

theorem keys_of_setLocation (l : List (Int × Option Int)) (i : Int)
    (v : Option Int) :
    (l.map (fun p => if p.1 == i then (p.1, v) else p)).map Prod.fst =
      l.map Prod.fst := by
  induction l with
  | nil => rfl
  | cons p t ih =>
    simp only [List.map_cons, ih]
    split <;> simp

theorem upsert_keys_nodup {l : List (Int × Option Int)} (i : Int)
    (v : Option Int) (h : (l.map Prod.fst).Nodup) :
    ((l.filter (fun p => !(p.1 == i)) ++ [(i, v)]).map Prod.fst).Nodup := by
  rw [List.map_append]
  refine List.Nodup.append ?_ (by simp) ?_
  · exact ((l.filter_sublist).map Prod.fst).nodup h
  · intro a ha hb
    simp only [List.map_cons, List.map_nil, List.mem_singleton] at hb
    subst hb
    simp only [List.mem_map, List.mem_filter] at ha
    rcases ha with ⟨p, ⟨_, hq⟩, hfst⟩
    simp only [Bool.not_eq_true', beq_eq_false_iff_ne] at hq
    exact hq hfst

theorem clearGameState_placements (fk : Bool) (now : Int) (db : DB) :
    (clearGameState fk now db).1.itemLocations = db.itemLocationsInitial ∧
    (clearGameState fk now db).1.itemLocationsInitial =
      db.itemLocationsInitial := by
  unfold clearGameState
  cases db.gameState
  · simp
  · simp only []
    split_ifs <;> simp

theorem applyOp_placementWF (fk : Bool) (db : DB) (op : PlayerOp)
    (h : placementWF db) : placementWF (applyOp fk db op) := by
  cases op with
  | createOp n d rd ct cu => exact h
  | placeOp i r =>
    show placementWF (placeItem fk i r db)
    unfold placeItem
    split_ifs with hc
    · exact h
    · exact ⟨upsert_keys_nodup i (some r) h.1, h.2⟩
  | takeOp i =>
    refine ⟨?_, h.2⟩
    show ((db.itemLocations.map _).map Prod.fst).Nodup
    rw [keys_of_setLocation]
    exact h.1
  | dropOp i r =>
    show placementWF (moveItemToRoom fk i r db)
    unfold moveItemToRoom
    split_ifs with hc
    · exact h
    · refine ⟨?_, h.2⟩
      show ((db.itemLocations.map _).map Prod.fst).Nodup
      rw [keys_of_setLocation]
      exact h.1
  | removeOp i => exact h
  | resetOp t =>
    have hp := clearGameState_placements fk t db
    show placementWF (clearGameState fk t db).1
    rw [placementWF, hp.1, hp.2]
    exact ⟨h.2, h.2⟩

theorem applyOps_placementWF (fk : Bool) (ops : List PlayerOp) (db : DB)
    (h : placementWF db) : placementWF (applyOps fk ops db) := by
  induction ops generalizing db with
  | nil => exact h
  | cons op t ih => exact ih (applyOp fk db op) (applyOp_placementWF fk db op h)

/-- C2 amended: starting from any store whose placement tables satisfy
their PRIMARY KEY (one row per item id), any sequence of item creations,
placings, takings, droppings, removings and resets leaves AT MOST one
placement row per item — never two — but not exactly one: CreateItem
inserts no placement row (see the counterexample). -/
theorem placement_at_most_one (fk : Bool) (ops : List PlayerOp) (db : DB)
    (h : placementWF db) (itemId : Int) :
    (applyOps fk ops db).itemLocations.countP (fun p => p.1 == itemId) ≤ 1 := by
  have hwf := (applyOps_placementWF fk ops db h).1
  rw [List.nodup_iff_count_le_one] at hwf
  have hc := hwf itemId
  rw [List.count, List.countP_map] at hc
  convert hc using 2

/-- C2 witness: the at-most-one bound applied after creating a third item
and placing it in room 1 of the starter store. -/
theorem placement_at_most_one_witness :
    placementWF starterDB ∧
    (applyOps true [PlayerOp.createOp "Lamp" "A lamp." "A lamp." true false,
        PlayerOp.placeOp 3 1] starterDB).itemLocations.countP
      (fun p => p.1 == 3) ≤ 1 := by
  have hwf : placementWF starterDB := by
    constructor <;> decide
  exact ⟨hwf, placement_at_most_one true _ starterDB hwf 3⟩

/-- C2 counterexample: after GameEditor::CreateItem alone the new item
(id 3, present in the items table) has ZERO placement rows, not exactly
one — the placement row only appears on the first PlaceItem. -/
theorem placement_exactly_one_counterexample :
    (createItem "Lamp" "A lamp." "A lamp." true false starterDB).2 = 3 ∧
    (applyOps true [PlayerOp.createOp "Lamp" "A lamp." "A lamp." true false]
        starterDB).items.any (fun it => it.id == 3) = true ∧
    (applyOps true [PlayerOp.createOp "Lamp" "A lamp." "A lamp." true false]
        starterDB).itemLocations.countP (fun p => p.1 == 3) = 0 ∧
    ¬ ((applyOps true [PlayerOp.createOp "Lamp" "A lamp." "A lamp." true false]
        starterDB).itemLocations.countP (fun p => p.1 == 3) = 1) := by
  refine ⟨rfl, by decide, by decide, by decide⟩

/-! ### C8 — DeleteRoom: last-room guard, redirect, rollback -/

/-- The four reference-clearing updates composed, as `deleteRoomBody`
applies them. -/
def clearedChain (roomId : Int) (rooms : List RoomRow) : List RoomRow :=
  clearWestRefs roomId (clearEastRefs roomId
    (clearSouthRefs roomId (clearNorthRefs roomId rooms)))

theorem deleteRoomBody_fail (fail : DeleteRoomStep → Bool) (fk : Bool)
    (roomId : Int) (db0 g : DB)
    (h : (deleteRoomBody fail fk roomId db0 g).2 = false) :
    (deleteRoomBody fail fk roomId db0 g).1 = db0 := by
  unfold deleteRoomBody at *
  split_ifs at * <;> simp_all

theorem deleteRoomBody_success (fail : DeleteRoomStep → Bool) (fk : Bool)
    (roomId : Int) (db0 g : DB)
    (h : (deleteRoomBody fail fk roomId db0 g).2 = true) :
    deleteRoomBody fail fk roomId db0 g =
      (removeRoomRow fk roomId { g with rooms := clearedChain roomId g.rooms },
        true) := by
  unfold deleteRoomBody clearedChain at *
  split_ifs at *
  all_goals simp_all

theorem removeRoomRow_gameState (fk : Bool) (roomId : Int) (g : DB) :
    (removeRoomRow fk roomId g).gameState = g.gameState := by
  unfold removeRoomRow
  split_ifs <;> rfl

theorem removeRoomRow_rooms (fk : Bool) (roomId : Int) (g : DB) :
    (removeRoomRow fk roomId g).rooms =
      g.rooms.filter (fun q => !(q.id == roomId)) := by
  unfold removeRoomRow
  split_ifs <;> rfl

/-- C8 amended: (a) when the game_state row points at the room being
deleted and no OTHER room exists, DeleteRoom fails and the store is
unchanged — the last-room guard only fires through the current-room check,
so it protects the last room only while the game state points at it (see
the counterexample for the reachable escape); (b) when the game state
points at the room and another room exists, a successful delete first
redirects the game state to the first other room and removes the room row;
(c) every failing run rolls its transaction back, returning the exact
pre-operation store. -/
theorem deleteRoom_guard_redirect_rollback (fail : DeleteRoomStep → Bool)
    (fk : Bool) (db : DB) (roomId : Int) :
    (∀ gs, db.gameState = some gs → gs.currentRoomId = roomId →
      db.rooms.find? (fun q => !(q.id == roomId)) = none →
      deleteRoom fail fk roomId db = (db, false)) ∧
    (∀ gs other, db.gameState = some gs → gs.currentRoomId = roomId →
      db.rooms.find? (fun q => !(q.id == roomId)) = some other →
      (deleteRoom fail fk roomId db).2 = true →
      (deleteRoom fail fk roomId db).1.gameState =
        some { gs with currentRoomId := other.id } ∧
      (deleteRoom fail fk roomId db).1.rooms.all
        (fun q => !(q.id == roomId)) = true) ∧
    ((deleteRoom fail fk roomId db).2 = false →
      (deleteRoom fail fk roomId db).1 = db) := by
  refine ⟨?_, ?_, ?_⟩
  · intro gs hgs hcur hnone
    unfold deleteRoom
    rw [hgs]
    simp only [hcur, beq_self_eq_true, if_true, hnone]
  · intro gs other hgs hcur hfind hsucc
    have e0 : deleteRoom fail fk roomId db =
        (if fail .redirect then (db, false)
          else deleteRoomBody fail fk roomId db
            { db with gameState := some { gs with currentRoomId := other.id } }) := by
      unfold deleteRoom
      rw [hgs]
      simp only [hcur, beq_self_eq_true, if_true, hfind]
    by_cases hred : fail .redirect
    · rw [e0, if_pos hred] at hsucc
      exact absurd hsucc (by simp)
    · rw [e0, if_neg hred] at hsucc ⊢
      rw [deleteRoomBody_success _ _ _ _ _ hsucc]
      refine ⟨by rw [removeRoomRow_gameState], ?_⟩
      rw [removeRoomRow_rooms]
      simp only [List.all_eq_true]
      intro q hq
      exact (List.mem_filter.mp hq).2
  · intro hfail
    rcases hres : deleteRoom fail fk roomId db with ⟨d, ok⟩
    rw [hres] at hfail
    have hok : ok = false := hfail
    subst hok
    show d = db
    unfold deleteRoom at hres
    repeat' split at hres
    all_goals first
      | (injection hres with h1 _
         exact h1.symm)
      | (have h2 := congrArg Prod.snd hres
         have h1 := deleteRoomBody_fail _ _ _ _ _ h2
         rw [hres] at h1
         exact h1)

/-- C8 witness: the amended theorem applied to a one-room store whose game
state points at that room (the guard fires, nothing changes), to the
starter store (room 1 is current; its delete succeeds and redirects the
game state to room 2), and to a run whose east-clearing statement fails
(the transaction rolls back). -/
theorem deleteRoom_guard_witness :
    deleteRoom noFail true 1
        { rooms := [layoutRoom 1 none none none none],
          gameState := some { currentRoomId := 1 } } =
      ({ rooms := [layoutRoom 1 none none none none],
          gameState := some { currentRoomId := 1 } }, false) ∧
    (deleteRoom noFail true 1 starterDB).1.gameState =
      some { currentRoomId := 2 } ∧
    (deleteRoom (fun s => decide (s = DeleteRoomStep.clearEast)) true 2
        starterDB).1 = starterDB := by
  have h1 := (deleteRoom_guard_redirect_rollback noFail true
    { rooms := [layoutRoom 1 none none none none],
      gameState := some { currentRoomId := 1 } } 1).1
    { currentRoomId := 1 } rfl rfl (by decide)
  have h2 := (deleteRoom_guard_redirect_rollback noFail true starterDB 1).2.1
    { currentRoomId := 1, startTime := 0 } starterRoom2 rfl rfl (by decide)
    (by decide)
  have h3 := (deleteRoom_guard_redirect_rollback
    (fun s => decide (s = DeleteRoomStep.clearEast)) true starterDB 2).2.2
    (by decide)
  exact ⟨h1, by simpa [starterRoom2] using h2.1, h3⟩

/-- C8 counterexample: a store with exactly one room on which DeleteRoom
SUCCEEDS, leaving zero rooms.  The store is reached from the starter store
through documented operations on a re-opened (foreign keys OFF) connection:
MoveToRoom(3) — MoveToRoom validates nothing — leaves game_state pointing
at a nonexistent room, DeleteRoom(2) then succeeds, and the final
DeleteRoom(1) skips the current-room guard entirely because the game state
does not point at room 1. -/
theorem deleteRoom_lastRoom_counterexample :
    ((deleteRoom noFail false 2 (moveToRoom false 3 starterDB)).1).rooms.length
        = 1 ∧
    (deleteRoom noFail false 1
      (deleteRoom noFail false 2 (moveToRoom false 3 starterDB)).1).2 = true ∧
    (deleteRoom noFail false 1
      (deleteRoom noFail false 2 (moveToRoom false 3 starterDB)).1).1.rooms
        = [] := by decide

/-! ### C7 — cascade integrity depends on foreign-key enforcement -/

/-- Does any placement row, item action (as acting or target item) or
combination rule reference this item? -/
def itemReferenced (db : DB) (itemId : Int) : Bool :=
  db.itemLocations.any (fun p => p.1 == itemId) ||
  db.itemActions.any (fun a => a.itemId == itemId || a.targetItemId == some itemId) ||
  db.itemCombinations.any (fun c =>
    c.item1Id == itemId || c.item2Id == itemId || c.resultItemId == itemId)

/-- Does any room keep a directional reference to this room id? -/
def roomReferenced (rooms : List RoomRow) (roomId : Int) : Bool :=
  rooms.any (fun q => q.northRoomId == some roomId || q.southRoomId == some roomId
    || q.eastRoomId == some roomId || q.westRoomId == some roomId)

theorem any_filter_self_false {α : Type} (p : α → Bool) (l : List α) :
    (l.filter (fun x => !(p x))).any p = false := by
  rw [List.any_eq_false]
  intro x hx
  have h := (List.mem_filter.mp hx).2
  rw [Bool.not_eq_true'] at h
  simp [h]

theorem clearedChain_no_refs (roomId : Int) (rooms : List RoomRow)
    (q : RoomRow) (hq : q ∈ clearedChain roomId rooms) :
    (q.northRoomId == some roomId) = false ∧
    (q.southRoomId == some roomId) = false ∧
    (q.eastRoomId == some roomId) = false ∧
    (q.westRoomId == some roomId) = false := by
  unfold clearedChain clearWestRefs clearEastRefs clearSouthRefs
    clearNorthRefs at hq
  simp only [List.mem_map] at hq
  rcases hq with ⟨q3, ⟨q2, ⟨q1, ⟨q0, _, rfl⟩, rfl⟩, rfl⟩, rfl⟩
  split_ifs <;> simp_all

theorem deleteRoom_success_rooms (fail : DeleteRoomStep → Bool) (fk : Bool)
    (roomId : Int) (db : DB)
    (h : (deleteRoom fail fk roomId db).2 = true) :
    (deleteRoom fail fk roomId db).1.rooms =
      (clearedChain roomId db.rooms).filter (fun q => !(q.id == roomId)) := by
  rcases hres : deleteRoom fail fk roomId db with ⟨d, ok⟩
  rw [hres] at h
  have hok : ok = true := h
  subst hok
  show d.rooms = _
  unfold deleteRoom at hres
  repeat' split at hres
  all_goals first
    | (injection hres with _ h2
       cases h2)
    | (have h2 := congrArg Prod.snd hres
       have hb := deleteRoomBody_success _ _ _ _ _ h2
       rw [hres] at hb
       injection hb with h1 _
       rw [h1, removeRoomRow_rooms])

/-- C7: cascade integrity holds only on the creating connection.  (a) With
foreign keys enforced, DeleteItem leaves no placement row, item action or
combination rule referencing the item.  (b) A successful DeleteRoom leaves
no directional reference to the deleted room (this part does not depend on
enforcement: the updates are explicit).  (c) The failing input: reopening
the starter store (GameDatabase::Open never issues PRAGMA foreign_keys, so
the SQLite default OFF applies) and calling DeleteItem(1) deletes only the
items row — the placement row for item 1 survives as an orphan, although
the code comments in GameEditor::DeleteItem rely on the cascade. -/
theorem delete_cascades_fk_dependent (db : DB) (itemId roomId : Int)
    (fail : DeleteRoomStep → Bool) (fk : Bool) :
    itemReferenced (deleteItem true itemId db) itemId = false ∧
    ((deleteRoom fail fk roomId db).2 &&
      roomReferenced (deleteRoom fail fk roomId db).1.rooms roomId) = false ∧
    itemReferenced (deleteItem false 1 starterDB) 1 = true := by
  refine ⟨?_, ?_, by decide⟩
  · show itemReferenced (deleteItem true itemId db) itemId = false
    unfold deleteItem
    rw [if_pos rfl]
    unfold itemReferenced
    simp [any_filter_self_false]
  · by_cases hs : (deleteRoom fail fk roomId db).2 = true
    · rw [hs, Bool.true_and]
      rw [deleteRoom_success_rooms _ _ _ _ hs]
      unfold roomReferenced
      rw [List.any_eq_false]
      intro q hq
      have h4 := clearedChain_no_refs roomId db.rooms q (List.mem_filter.mp hq).1
      simp [h4.1, h4.2.1, h4.2.2.1, h4.2.2.2]
    · rw [Bool.not_eq_true] at hs
      rw [hs, Bool.false_and]

/-! ### C3 — auto-layout collision probing -/

theorem firstFreeOffset_some (positions : List (Int × Int × Int))
    (baseX y : Int) (os : List Nat) (o : Nat) :
    firstFreeOffset positions baseX y os = some o →
    occupiedAt positions (baseX + (o : Int)) y = false := by
  induction os with
  | nil =>
    intro h
    cases h
  | cons a t ih =>
    intro h
    unfold firstFreeOffset at h
    split_ifs at h with ha
    · exact ih h
    · injection h with h1
      subst h1
      exact Bool.not_eq_true _ |>.mp ha

theorem firstFreeOffset_none (positions : List (Int × Int × Int))
    (baseX y : Int) (os : List Nat) :
    firstFreeOffset positions baseX y os = none →
    ∀ o ∈ os, occupiedAt positions (baseX + (o : Int)) y = true := by
  induction os with
  | nil =>
    intro _ o ho
    cases ho
  | cons a t ih =>
    intro h o ho
    unfold firstFreeOffset at h
    split_ifs at h with ha
    rcases List.mem_cons.mp ho with rfl | hmem
    · exact ha
    · exact ih h o hmem

theorem firstFreeOffset_mem (positions : List (Int × Int × Int))
    (baseX y : Int) (os : List Nat) (o : Nat) :
    firstFreeOffset positions baseX y os = some o → o ∈ os := by
  induction os with
  | nil =>
    intro h
    cases h
  | cons a t ih =>
    intro h
    unfold firstFreeOffset at h
    split_ifs at h
    · exact List.mem_cons_of_mem _ (ih h)
    · injection h with h1
      subst h1
      exact List.mem_cons_self _ _

/-- C3 amended: the collision probe tries only the NINE offsets +1..+9
along x.  Whenever the target cell or one of the nine probed cells is
free, the room is placed on a free cell (the target if free, otherwise the
first free probed cell); but when the target and all nine probes are
occupied, the loop falls through and the room is placed at offset +9 even
though that cell is occupied — so visited rooms can share a coordinate
(see the counterexample), and the claimed no-collision property holds only
for runs in which every collision resolves within the nine probes. -/
theorem placeX_probe_window (positions : List (Int × Int × Int))
    (baseX y : Int) :
    ((∃ k : Nat, k ≤ 9 ∧ occupiedAt positions (baseX + (k : Int)) y = false) →
      occupiedAt positions (placeX positions baseX y) y = false) ∧
    ((∀ k : Nat, k ≤ 9 → occupiedAt positions (baseX + (k : Int)) y = true) →
      placeX positions baseX y = baseX + 9) := by
  constructor
  · rintro ⟨k, hk9, hfree⟩
    unfold placeX
    split_ifs with hocc
    · cases hff : firstFreeOffset positions baseX y probeOffsets with
      | some o => exact firstFreeOffset_some _ _ _ _ _ hff
      | none =>
        exfalso
        have hall := firstFreeOffset_none _ _ _ _ hff
        rcases Nat.eq_zero_or_pos k with rfl | hpos
        · rw [show baseX + ((0 : Nat) : Int) = baseX by simp] at hfree
          rw [hfree] at hocc
          cases hocc
        · have hmem : k ∈ probeOffsets := by
            unfold probeOffsets
            rw [List.mem_map]
            exact ⟨k - 1, List.mem_range.mpr (by omega), by omega⟩
          have hcontra := hall k hmem
          rw [hfree] at hcontra
          cases hcontra
    · exact Bool.not_eq_true _ |>.mp hocc
  · intro hall
    unfold placeX
    split_ifs with hocc
    · cases hff : firstFreeOffset positions baseX y probeOffsets with
      | some o =>
        exfalso
        have hfree := firstFreeOffset_some _ _ _ _ _ hff
        have hmem := firstFreeOffset_mem _ _ _ _ _ hff
        have ho9 : o ≤ 9 := by
          unfold probeOffsets at hmem
          rw [List.mem_map] at hmem
          rcases hmem with ⟨j, hj, rfl⟩
          have := List.mem_range.mp hj
          omega
        rw [hall o ho9] at hfree
        cases hfree
      | none => rfl
    · exfalso
      have h0 := hall 0 (by omega)
      rw [show baseX + ((0 : Nat) : Int) = baseX by simp] at h0
      rw [h0] at hocc
      exact hocc rfl

/-- Ten rooms already occupying the cells (0,0) .. (9,0), exhausting the
probe window of a placement whose target cell is (0,0). -/
def fullRowPositions : List (Int × Int × Int) :=
  [(100, 0, 0), (101, 1, 0), (102, 2, 0), (103, 3, 0), (104, 4, 0),
    (105, 5, 0), (106, 6, 0), (107, 7, 0), (108, 8, 0), (109, 9, 0)]

/-- C3 witness: the probe-window property applied where probe +1 is free,
and where the whole window is occupied (the room then lands on the
occupied cell at offset +9). -/
theorem placeX_probe_window_witness :
    occupiedAt [((1 : Int), (0 : Int), (0 : Int))]
      (placeX [((1 : Int), (0 : Int), (0 : Int))] 0 0) 0 = false ∧
    placeX fullRowPositions 0 0 = 0 + 9 := by
  constructor
  · exact (placeX_probe_window [((1 : Int), (0 : Int), (0 : Int))] 0 0).1
      ⟨1, by omega, by decide⟩
  · refine (placeX_probe_window fullRowPositions 0 0).2 ?_
    intro k hk
    interval_cases k <;> decide

/-- C3 counterexample: on the 24-room graph `c3Rooms`, starting at room 1,
the BFS reaches room 32 at (0,2) only after the row (0,1) .. (9,1) is
fully occupied; placing room 40 (north of room 32, target (0,1)) exhausts
all nine probes and room 40 is placed at (9,1) — the same cell as the
visited room 19.  Two visited rooms share a coordinate, refuting the
claimed universal no-collision property. -/
theorem autoLayout_collision_counterexample :
    posOf (autoLayoutRooms c3Rooms 1 100) 19 = some (9, 1) ∧
    posOf (autoLayoutRooms c3Rooms 1 100) 40 = some (9, 1) ∧
    (19 : Int) ≠ 40 := by
  refine ⟨by decide, by decide, by decide⟩

/-! ### C4 — action resolution on item use -/

/-- The guard of the reveal_item / remove_item branches of
_ExecuteItemAction: `action.targetItemId > 0` (NULL leaves a non-positive
struct default). -/
def hasPositiveTarget (a : ActionRow) : Bool :=
  match a.targetItemId with
  | some t => decide (t > 0)
  | none => false

/-- The guard of the unlock_exit branch: `action.targetDirection.Length() >
0`. -/
def hasTargetDirection (a : ActionRow) : Bool :=
  match a.targetDirection with
  | some d => decide (d.length > 0)
  | none => false

/-- Does _ExecuteItemAction reach its success path for this action row: a
recognized action_type whose required target field is present? -/
def actionDispatchSucceeds (a : ActionRow) : Bool :=
  ((a.actionType == "reveal_item" || a.actionType == "remove_item") &&
      hasPositiveTarget a) ||
    (a.actionType == "unlock_exit" && hasTargetDirection a)

theorem executeItemAction_cases (db : DB) (current : Int) (a : ActionRow) :
    (actionDispatchSucceeds a = false →
      executeItemAction db current a = (db, .actionFailed)) ∧
    (actionDispatchSucceeds a = true →
      (executeItemAction db current a).1.completedActions =
        insertIfAbsent a.id db.completedActions ∧
      (a.consumesItem = true →
        a.itemId ∈ (executeItemAction db current a).1.removedItems) ∧
      ∃ m, (executeItemAction db current a).2 = UseItemResult.actionFired m) := by
  by_cases h1 : a.actionType = "reveal_item"
  · cases ht : a.targetItemId with
    | none =>
      refine ⟨fun _ => ?_, fun hd => ?_⟩
      · simp [executeItemAction, h1, ht]
      · simp [actionDispatchSucceeds, hasPositiveTarget, h1, ht] at hd
    | some t =>
      by_cases htp : t > 0
      · refine ⟨fun hd => ?_, fun _ => ?_⟩
        · simp [actionDispatchSucceeds, hasPositiveTarget, h1, ht, htp] at hd
        · by_cases hc : a.consumesItem <;>
            simp [executeItemAction, h1, ht, htp, hc, markActionCompleted,
              removeItemFromRoom, setItemVisibility, mem_insertIfAbsent]
      · refine ⟨fun _ => ?_, fun hd => ?_⟩
        · simp [executeItemAction, h1, ht, htp]
        · simp [actionDispatchSucceeds, hasPositiveTarget, h1, ht, htp] at hd
  · by_cases h2 : a.actionType = "remove_item"
    · cases ht : a.targetItemId with
      | none =>
        refine ⟨fun _ => ?_, fun hd => ?_⟩
        · simp [executeItemAction, h1, h2, ht]
        · simp [actionDispatchSucceeds, hasPositiveTarget, h1, h2, ht] at hd
      | some t =>
        by_cases htp : t > 0
        · refine ⟨fun hd => ?_, fun _ => ?_⟩
          · simp [actionDispatchSucceeds, hasPositiveTarget, h1, h2, ht, htp] at hd
          · by_cases hc : a.consumesItem <;>
              simp [executeItemAction, h1, h2, ht, htp, hc, markActionCompleted,
                removeItemFromRoom, mem_insertIfAbsent]
        · refine ⟨fun _ => ?_, fun hd => ?_⟩
          · simp [executeItemAction, h1, h2, ht, htp]
          · simp [actionDispatchSucceeds, hasPositiveTarget, h1, h2, ht, htp] at hd
    · by_cases h3 : a.actionType = "unlock_exit"
      · cases ht : a.targetDirection with
        | none =>
          refine ⟨fun _ => ?_, fun hd => ?_⟩
          · simp [executeItemAction, h1, h2, h3, ht]
          · simp [actionDispatchSucceeds, hasPositiveTarget, hasTargetDirection,
              h1, h2, h3, ht] at hd
        | some d =>
          by_cases hdl : d.length > 0
          · refine ⟨fun hd => ?_, fun _ => ?_⟩
            · simp [actionDispatchSucceeds, hasPositiveTarget, hasTargetDirection,
                h1, h2, h3, ht, hdl] at hd
            · by_cases hc : a.consumesItem <;>
                simp [executeItemAction, h1, h2, h3, ht, hdl, hc,
                  markActionCompleted, removeItemFromRoom, unlockExit,
                  mem_insertIfAbsent]
          · refine ⟨fun _ => ?_, fun hd => ?_⟩
            · simp [executeItemAction, h1, h2, h3, ht, hdl]
            · simp [actionDispatchSucceeds, hasPositiveTarget, hasTargetDirection,
                h1, h2, h3, ht, hdl] at hd
      · refine ⟨fun _ => ?_, fun hd => ?_⟩
        · simp [executeItemAction, h1, h2, h3]
        · simp [actionDispatchSucceeds, hasPositiveTarget, hasTargetDirection,
            h1, h2, h3] at hd

/-- C4 amended: using an item fires AT MOST one action.  When a first
not-yet-completed action row exists among the rows for (item, current room
or global): if its kind is recognized AND its required target field is
present, exactly that action is appended to the completed-action log, its
effect fires, and the acting item is removed when consumesItem is set; if
its kind is unrecognized OR its required target is absent, the operation
reports a failure and mutates nothing — in particular the action is NOT
marked completed (the claim asserted unconditional marking; see the
counterexample).  When actions exist but all are completed, the operation
reports that nothing new happens and executes nothing. -/
theorem useItem_resolution (db : DB) (itemId : Int) :
    (∀ a, (getItemActions db itemId (currentRoomOf db)).find?
        (fun x => !(isActionCompleted db x.id)) = some a →
      ((actionDispatchSucceeds a = true →
        (useItem db itemId).1.completedActions =
          db.completedActions ++ [a.id] ∧
        isActionCompleted (useItem db itemId).1 a.id = true ∧
        (a.consumesItem = true →
          a.itemId ∈ (useItem db itemId).1.removedItems) ∧
        ∃ m, (useItem db itemId).2 = UseItemResult.actionFired m) ∧
       (actionDispatchSucceeds a = false →
        useItem db itemId = (db, UseItemResult.actionFailed)))) ∧
    ((getItemActions db itemId (currentRoomOf db)).length > 0 →
      (getItemActions db itemId (currentRoomOf db)).find?
        (fun x => !(isActionCompleted db x.id)) = none →
      useItem db itemId = (db, UseItemResult.alreadyUsed)) := by
  constructor
  · intro a hfind
    have hne : (getItemActions db itemId (currentRoomOf db)).length > 0 := by
      cases hl : getItemActions db itemId (currentRoomOf db) with
      | nil =>
        rw [hl] at hfind
        cases hfind
      | cons x t => simp
    have huse : useItem db itemId = executeItemAction db (currentRoomOf db) a := by
      unfold useItem
      rw [if_pos hne, hfind]
    have hcases := executeItemAction_cases db (currentRoomOf db) a
    have hpred := List.find?_some hfind
    rw [Bool.not_eq_true'] at hpred
    have hnotmem : a.id ∉ db.completedActions := by
      intro hm
      rw [isActionCompleted] at hpred
      have hc : db.completedActions.contains a.id = true := List.elem_iff.mpr hm
      rw [hc] at hpred
      cases hpred
    constructor
    · intro hd
      rcases hcases.2 hd with ⟨hcomp, hcons, m, hfired⟩
      rw [huse]
      refine ⟨?_, ?_, hcons, ⟨m, hfired⟩⟩
      · rw [hcomp, insertIfAbsent_of_not_mem hnotmem]
      · rw [isActionCompleted]
        apply List.elem_iff.mpr
        rw [hcomp]
        exact mem_insertIfAbsent _ _
    · intro hd
      rw [huse]
      exact hcases.1 hd
  · intro hne hfind
    unfold useItem
    rw [if_pos hne, hfind]

/-- A well-formed reveal action (positive target item 9) in the same
setting as `c4DB`. -/
def c4GoodAction : ActionRow :=
  { id := 1, itemId := 5, roomId := some 7, actionType := "reveal_item",
    targetItemId := some 9 }

/-- `c4DB` with the well-formed action instead of the target-less one. -/
def c4GoodDB : DB :=
  { c4DB with itemActions := [c4GoodAction] }

/-- `c4GoodDB` after its only action has been completed. -/
def c4DoneDB : DB :=
  { c4GoodDB with completedActions := [1] }

/-- C4 witness: the resolution theorem applied where the first uncompleted
action dispatches (it gets marked and fires), where every action is
already completed (nothing new happens), and where the dispatch guard
fails (failure, no mutation). -/
theorem useItem_resolution_witness :
    ((useItem c4GoodDB 5).1.completedActions = [1] ∧
      ∃ m, (useItem c4GoodDB 5).2 = UseItemResult.actionFired m) ∧
    useItem c4DoneDB 5 = (c4DoneDB, UseItemResult.alreadyUsed) ∧
    useItem c4DB 5 = (c4DB, UseItemResult.actionFailed) := by
  have hgood := ((useItem_resolution c4GoodDB 5).1 c4GoodAction
    (by decide)).1 (by decide)
  have hdone := (useItem_resolution c4DoneDB 5).2 (by decide) (by decide)
  have hbad := ((useItem_resolution c4DB 5).1
    { id := 1, itemId := 5, roomId := some 7, actionType := "reveal_item" }
    (by decide)).2 (by decide)
  refine ⟨⟨?_, hgood.2.2.2⟩, hdone, hbad⟩
  rw [hgood.1]
  decide

/-- C4 counterexample: in `c4DB` the first (only) uncompleted action for
item 5 in room 7 is a recognized reveal_item action, but its target item
column is NULL; _UseItem dispatches it, the execution fails, and the
action is NOT marked completed — refuting the claim that the first
uncompleted action "is executed and then marked completed". -/
theorem useItem_unmarked_counterexample :
    (getItemActions c4DB 5 (currentRoomOf c4DB)).find?
      (fun x => !(isActionCompleted c4DB x.id)) =
      some { id := 1, itemId := 5, roomId := some 7,
             actionType := "reveal_item" } ∧
    useItem c4DB 5 = (c4DB, UseItemResult.actionFailed) ∧
    isActionCompleted (useItem c4DB 5).1 1 = false := by decide

end Pathfinder

